import Mathlib

/-!
Shallow embedding of the EcoMeals meal-tracking calculator
(`src/ecomeals_coding_sample.py` and `src/airbnb_ecomeals_coding_sample.py`,
which define identical calculator logic inside `EcoMealsView`).

The two pure calculator methods are embedded as Lean functions over ℤ:
`calculate_co2_reduced` mirrors the if/elif chain over the three boolean
meal flags, and `calculate_ecomeals_points` comes in two readings of
`math.floor(user_co2_reduced / 100 * POINTS_AWARDED_100GCO2)`:

* `calculate_ecomeals_points` is the exact-rational idealization, taking
  `/` as exact division.  It agrees with the program at every value
  reachable from a meal selection, but not at every integer.
* `calculate_ecomeals_points_float` is the code-level semantics: CPython
  evaluates `user_co2_reduced / 100` as int/int true division, producing
  the IEEE-754 binary64 double nearest the exact quotient (ties to even),
  multiplies by the exactly-representable float 50 with another correctly
  rounded binary64 operation, and applies the exact `math.floor`.  Both
  roundings are modelled by `roundDouble` on exact rationals; the
  `OverflowError` paths (quotient or product beyond the binary64 range)
  return `none`.  No reachable intermediate value is subnormal (nonzero
  inputs give quotients of magnitude ≥ 1/100), so the normal-range
  rounding model is exact for this code.

A dictionary-level variant `calculate_co2_reduced_dict` models the Python
dict lookups, which raise (here: return `none`) when a key is missing.
-/

/-- Points awarded for every 100 grams of CO2 emissions reduced. -/
def POINTS_AWARDED_100GCO2 : ℤ := 50

/-- Conversion factor for CO2 emissions reduced to points. -/
def CO2_REDUCTION_FACTOR : ℤ := 100

def CO2E_PLANTBASED_BREAKFAST_GRAMS : ℤ := 1100

def CO2E_PLANTBASED_LUNCH_GRAMS : ℤ := 980

def CO2E_PLANTBASED_DINNER_GRAMS : ℤ := 1100

def CO2E_MEATBASED_BREAKFAST_GRAMS : ℤ := 2600

def CO2E_MEATBASED_LUNCH_GRAMS : ℤ := 3800

def CO2E_MEATBASED_DINNER_GRAMS : ℤ := 4800

/-- A well-formed meal selection: the three boolean flags carried by the
POST body (`eco_breakfast`, `eco_lunch`, `eco_dinner`). -/
structure MealSelection where
  eco_breakfast : Bool
  eco_lunch : Bool
  eco_dinner : Bool
  deriving DecidableEq, Repr

/-- Embedding of `EcoMealsView.calculate_co2_reduced`: the if/elif chain
over the three flags, each branch returning the meat-minus-plant-based
carbon-footprint difference for that meal. -/
def calculate_co2_reduced (user_ecomeals_input : MealSelection) : ℤ :=
  if user_ecomeals_input.eco_breakfast then
    CO2E_MEATBASED_BREAKFAST_GRAMS - CO2E_PLANTBASED_BREAKFAST_GRAMS
  else if user_ecomeals_input.eco_lunch then
    CO2E_MEATBASED_LUNCH_GRAMS - CO2E_PLANTBASED_LUNCH_GRAMS
  else if user_ecomeals_input.eco_dinner then
    CO2E_MEATBASED_DINNER_GRAMS - CO2E_PLANTBASED_DINNER_GRAMS
  else 0

/-- Exact-rational idealization of `EcoMealsView.calculate_ecomeals_points`:
`math.floor(user_co2_reduced / 100 * POINTS_AWARDED_100GCO2)` with the
division read as exact rational division.  This matches the program at
every value reachable from a meal selection (0, 1500, 2820, 3700), where
the float computation is exact, but not at every integer; the code-level
semantics is `calculate_ecomeals_points_float`. -/
def calculate_ecomeals_points (user_co2_reduced : ℤ) : ℤ :=
  ⌊(user_co2_reduced : ℚ) / 100 * (POINTS_AWARDED_100GCO2 : ℚ)⌋

/-- Round a rational to the integer nearest it, ties to even: the
rounding IEEE 754 prescribes for the integer significand. -/
def roundHalfEven (q : ℚ) : ℤ :=
  if q - ⌊q⌋ < 1 / 2 then ⌊q⌋
  else if 1 / 2 < q - ⌊q⌋ then ⌊q⌋ + 1
  else if ⌊q⌋ % 2 = 0 then ⌊q⌋ else ⌊q⌋ + 1

/-- Round a positive rational to the nearest binary64 double (normal
range): scale into the 53-bit significand window `[2^52, 2^53)` using the
binade exponent `Int.log 2 x`, round the significand to nearest/even, and
scale back. -/
def roundDoublePos (x : ℚ) : ℚ :=
  (roundHalfEven (x * 2 ^ ((52 : ℤ) - Int.log 2 x)) : ℚ) * 2 ^ (Int.log 2 x - 52)

/-- Round a rational to the nearest binary64 double (normal range),
extending `roundDoublePos` to zero and, by the symmetry of
nearest-even rounding, to negatives. -/
def roundDouble (x : ℚ) : ℚ :=
  if x = 0 then 0
  else if x < 0 then -roundDoublePos (-x)
  else roundDoublePos x

/-- Code-level embedding of `EcoMealsView.calculate_ecomeals_points`:
`math.floor(user_co2_reduced / 100 * POINTS_AWARDED_100GCO2)` with
CPython semantics.  The int/int true division and the float-by-50
multiplication are each correctly rounded binary64 operations
(`roundDouble`); a rounded result of magnitude `≥ 2^1024` falls outside
the double range and the program raises (`OverflowError` from the
division, or an infinite product that `math.floor` rejects), modelled as
`none`; otherwise `math.floor` is exact. -/
def calculate_ecomeals_points_float (user_co2_reduced : ℤ) : Option ℤ :=
  if (2 : ℚ) ^ (1024 : ℕ) ≤ |roundDouble ((user_co2_reduced : ℚ) / 100)| then none
  else if (2 : ℚ) ^ (1024 : ℕ) ≤
      |roundDouble (roundDouble ((user_co2_reduced : ℚ) / 100) * 50)| then none
  else some ⌊roundDouble (roundDouble ((user_co2_reduced : ℚ) / 100) * 50)⌋

/-- Dictionary-level embedding of `calculate_co2_reduced`.  The Python
method receives `request.data`, a dict, and subscripts it with the three
keys; a missing key raises `KeyError`, modelled as `none`.  Subsequent
keys are only looked up when the earlier branches were not taken, exactly
as in the Python if/elif chain. -/
def calculate_co2_reduced_dict (user_ecomeals_input : String → Option Bool) :
    Option ℤ :=
  match user_ecomeals_input "eco_breakfast" with
  | none => none
  | some b =>
    if b then
      some (CO2E_MEATBASED_BREAKFAST_GRAMS - CO2E_PLANTBASED_BREAKFAST_GRAMS)
    else
      match user_ecomeals_input "eco_lunch" with
      | none => none
      | some l =>
        if l then
          some (CO2E_MEATBASED_LUNCH_GRAMS - CO2E_PLANTBASED_LUNCH_GRAMS)
        else
          match user_ecomeals_input "eco_dinner" with
          | none => none
          | some d =>
            if d then
              some (CO2E_MEATBASED_DINNER_GRAMS - CO2E_PLANTBASED_DINNER_GRAMS)
            else
              some 0

/-- Spec-side points formula, following the spec words: the exact
rational value `n / 100 * 50` truncated toward zero. -/
def spec_computePoints (n : ℤ) : ℤ :=
  if 0 ≤ (n : ℚ) / 100 * 50 then ⌊(n : ℚ) / 100 * 50⌋ else ⌈(n : ℚ) / 100 * 50⌉

/-- The exact-rational points formula reduces to integer halving: for
every integer `n`, `⌊(n : ℚ) / 100 * 50⌋ = n / 2` (Euclidean division
on ℤ). -/
lemma calculate_ecomeals_points_eq_half (n : ℤ) :
    calculate_ecomeals_points n = n / 2 := by
  unfold calculate_ecomeals_points POINTS_AWARDED_100GCO2
  have h : (n : ℚ) / 100 * ((50 : ℤ) : ℚ) = ((n * 50 : ℤ) : ℚ) / ((100 : ℕ) : ℚ) := by
    push_cast
    ring
  rw [h, Rat.floor_intCast_div_natCast]
  have h2 : n * 50 / ((100 : ℕ) : ℤ) = 50 * n / (50 * 2) := by
    norm_num
    ring_nf
  rw [h2, Int.mul_ediv_mul_of_pos _ _ (by norm_num : (0 : ℤ) < 50)]

/-- On non-negative inputs the spec formula's truncation is a floor, and
so also reduces to integer halving. -/
lemma spec_computePoints_eq_half (n : ℤ) (h : 0 ≤ n) :
    spec_computePoints n = n / 2 := by
  have hn : (0 : ℚ) ≤ (n : ℚ) := by exact_mod_cast h
  have hq : (0 : ℚ) ≤ (n : ℚ) / 100 * 50 := by
    have h1 := div_nonneg hn (by norm_num : (0 : ℚ) ≤ 100)
    nlinarith
  unfold spec_computePoints
  rw [if_pos hq]
  have hfl : ⌊(n : ℚ) / 100 * 50⌋ = calculate_ecomeals_points n := by
    unfold calculate_ecomeals_points POINTS_AWARDED_100GCO2
    norm_num
  rw [hfl, calculate_ecomeals_points_eq_half]

/-- The binade exponent is determined by its bounds. -/
lemma int_log_eq (x : ℚ) (e : ℤ) (h0 : 0 < x) (h1 : (2 : ℚ) ^ e ≤ x)
    (h2 : x < (2 : ℚ) ^ (e + 1)) : Int.log 2 x = e := by
  have h1n : ((2 : ℕ) : ℚ) ^ e ≤ x := by exact_mod_cast h1
  have h2n : x < ((2 : ℕ) : ℚ) ^ (e + 1) := by exact_mod_cast h2
  have ha : e ≤ Int.log 2 x := (Int.zpow_le_iff_le_log (b := 2) (by norm_num) h0).mp h1n
  have hb : Int.log 2 x < e + 1 := (Int.lt_zpow_iff_log_lt (b := 2) (by norm_num) h0).mp h2n
  omega

/-- Evaluate `roundHalfEven` when the value sits below the halfway point. -/
lemma roundHalfEven_eval_down (q : ℚ) (f : ℤ) (h1 : (f : ℚ) ≤ q)
    (h2 : q < (f : ℚ) + 1 / 2) : roundHalfEven q = f := by
  have hf : ⌊q⌋ = f := Int.floor_eq_iff.mpr ⟨h1, by linarith⟩
  unfold roundHalfEven
  rw [hf, if_pos (by linarith)]

/-- Evaluate `roundHalfEven` when the value sits above the halfway point. -/
lemma roundHalfEven_eval_up (q : ℚ) (f : ℤ) (h1 : (f : ℚ) + 1 / 2 < q)
    (h2 : q < (f : ℚ) + 1) : roundHalfEven q = f + 1 := by
  have hf : ⌊q⌋ = f := Int.floor_eq_iff.mpr ⟨by linarith, by linarith⟩
  unfold roundHalfEven
  rw [hf, if_neg (by linarith), if_pos (by linarith)]

/-- An integer rounds to itself. -/
lemma roundHalfEven_intCast (k : ℤ) : roundHalfEven (k : ℚ) = k := by
  unfold roundHalfEven
  rw [Int.floor_intCast, if_pos (by norm_num)]

/-- Evaluate an integer floor from its bounds. -/
lemma floor_eval (p : ℚ) (r : ℤ) (h1 : (r : ℚ) ≤ p) (h2 : p < (r : ℚ) + 1) :
    ⌊p⌋ = r :=
  Int.floor_eq_iff.mpr ⟨h1, by linarith⟩

lemma roundDouble_zero : roundDouble 0 = 0 := by
  unfold roundDouble
  rw [if_pos rfl]

/-- Evaluate `roundDouble` on a positive rational from its binade bounds
and the rounded significand. -/
lemma roundDouble_eval (x q : ℚ) (e m : ℤ) (h0 : 0 < x)
    (h1 : (2 : ℚ) ^ e ≤ x) (h2 : x < (2 : ℚ) ^ (e + 1))
    (hm : roundHalfEven (x * 2 ^ ((52 : ℤ) - e)) = m)
    (hq : (m : ℚ) * 2 ^ (e - 52) = q) : roundDouble x = q := by
  unfold roundDouble roundDoublePos
  rw [if_neg h0.ne', if_neg (not_lt.mpr h0.le), int_log_eq x e h0 h1 h2, hm, hq]

/-- A positive rational whose significand-window scaling is an integer is
exactly representable and rounds to itself. -/
lemma roundDouble_exact (x : ℚ) (e k : ℤ) (h0 : 0 < x)
    (h1 : (2 : ℚ) ^ e ≤ x) (h2 : x < (2 : ℚ) ^ (e + 1))
    (hk : x * 2 ^ ((52 : ℤ) - e) = (k : ℚ)) : roundDouble x = x := by
  refine roundDouble_eval x x e k h0 h1 h2 (by rw [hk]; exact roundHalfEven_intCast k) ?_
  rw [← hk, mul_assoc, ← zpow_add₀ (by norm_num : (2 : ℚ) ≠ 0)]
  have he : (52 : ℤ) - e + (e - 52) = 0 := by ring
  rw [he, zpow_zero, mul_one]

/-- Evaluate the float-level points calculator from the two rounded
intermediate values, when neither overflows. -/
lemma points_float_eval (n : ℤ) (q p : ℚ) (r : ℤ)
    (hq : roundDouble ((n : ℚ) / 100) = q) (hq0 : 0 ≤ q)
    (hq1 : q < 2 ^ (1024 : ℕ))
    (hp : roundDouble (q * 50) = p) (hp0 : 0 ≤ p)
    (hp1 : p < 2 ^ (1024 : ℕ))
    (hr : ⌊p⌋ = r) :
    calculate_ecomeals_points_float n = some r := by
  unfold calculate_ecomeals_points_float
  rw [hq, hp, abs_of_nonneg hq0, abs_of_nonneg hp0,
    if_neg (not_le.mpr hq1), if_neg (not_le.mpr hp1), hr]

lemma points_float_at_zero : calculate_ecomeals_points_float 0 = some 0 := by
  refine points_float_eval 0 0 0 0 ?_ le_rfl (by norm_num) ?_ le_rfl (by norm_num)
    (floor_eval 0 0 (by norm_num) (by norm_num))
  · rw [show ((0 : ℤ) : ℚ) / 100 = 0 by norm_num, roundDouble_zero]
  · rw [show (0 : ℚ) * 50 = 0 by norm_num, roundDouble_zero]

lemma points_float_at_1500 : calculate_ecomeals_points_float 1500 = some 750 := by
  refine points_float_eval 1500 15 750 750 ?_ (by norm_num) (by norm_num) ?_ (by norm_num)
    (by norm_num) (floor_eval 750 750 (by norm_num) (by norm_num))
  · rw [show ((1500 : ℤ) : ℚ) / 100 = 15 by norm_num]
    exact roundDouble_exact 15 3 8444249301319680 (by norm_num) (by norm_num) (by norm_num)
      (by push_cast; norm_num)
  · rw [show (15 : ℚ) * 50 = 750 by norm_num]
    exact roundDouble_exact 750 9 6597069766656000 (by norm_num) (by norm_num) (by norm_num)
      (by push_cast; norm_num)

lemma points_float_at_2820 : calculate_ecomeals_points_float 2820 = some 1410 := by
  have hdiv : roundDouble (((2820 : ℤ) : ℚ) / 100) = 7937594343240499 / 281474976710656 := by
    rw [show ((2820 : ℤ) : ℚ) / 100 = 141 / 5 by norm_num]
    refine roundDouble_eval _ _ 4 7937594343240499 (by norm_num) (by norm_num) (by norm_num)
      (roundHalfEven_eval_down _ _ (by push_cast; norm_num) (by push_cast; norm_num)) ?_
    push_cast
    norm_num
  have hmul : roundDouble ((7937594343240499 : ℚ) / 281474976710656 * 50) = 1410 := by
    have hup : roundHalfEven
        ((7937594343240499 : ℚ) / 281474976710656 * 50 * 2 ^ ((52 : ℤ) - 10)) =
        6201245580656639 + 1 :=
      roundHalfEven_eval_up _ _ (by push_cast; norm_num) (by push_cast; norm_num)
    refine roundDouble_eval _ _ 10 6201245580656640 (by norm_num) (by norm_num) (by norm_num)
      (by rw [hup]; norm_num) ?_
    push_cast
    norm_num
  exact points_float_eval 2820 _ _ 1410 hdiv (by norm_num) (by norm_num) hmul (by norm_num)
    (by norm_num) (floor_eval 1410 1410 (by norm_num) (by norm_num))

lemma points_float_at_3700 : calculate_ecomeals_points_float 3700 = some 1850 := by
  refine points_float_eval 3700 37 1850 1850 ?_ (by norm_num) (by norm_num) ?_ (by norm_num)
    (by norm_num) (floor_eval 1850 1850 (by norm_num) (by norm_num))
  · rw [show ((3700 : ℤ) : ℚ) / 100 = 37 by norm_num]
    exact roundDouble_exact 37 5 5207287069147136 (by norm_num) (by norm_num) (by norm_num)
      (by push_cast; norm_num)
  · rw [show (37 : ℚ) * 50 = 1850 by norm_num]
    exact roundDouble_exact 1850 10 8136386045542400 (by norm_num) (by norm_num) (by norm_num)
      (by push_cast; norm_num)

/-- At `n = 10^17 + 2` the first rounding already loses the trailing 2:
the quotient `1000000000000000.02` rounds to the double
`1000000000000000.0` (the ulp there is `1/8`), and the product is then
exactly `5 * 10^16`. -/
lemma points_float_at_big :
    calculate_ecomeals_points_float 100000000000000002 = some 50000000000000000 := by
  have hdiv : roundDouble (((100000000000000002 : ℤ) : ℚ) / 100) = 1000000000000000 := by
    rw [show ((100000000000000002 : ℤ) : ℚ) / 100 = 50000000000000001 / 50 by norm_num]
    refine roundDouble_eval _ _ 49 8000000000000000 (by norm_num) (by norm_num) (by norm_num)
      (roundHalfEven_eval_down _ _ (by push_cast; norm_num) (by push_cast; norm_num)) ?_
    push_cast
    norm_num
  have hmul : roundDouble ((1000000000000000 : ℚ) * 50) = 50000000000000000 := by
    rw [show (1000000000000000 : ℚ) * 50 = 50000000000000000 by norm_num]
    exact roundDouble_exact 50000000000000000 55 6250000000000000 (by norm_num) (by norm_num)
      (by norm_num) (by push_cast; norm_num)
  exact points_float_eval _ _ _ 50000000000000000 hdiv (by norm_num) (by norm_num) hmul
    (by norm_num) (by norm_num)
    (floor_eval 50000000000000000 50000000000000000 (by norm_num) (by norm_num))

/-- At a non-negative input where the float pipeline yields exactly the
half, it agrees with the spec formula. -/
lemma points_float_spec_case (n : ℤ) (hn : 0 ≤ n) (r : ℤ)
    (hfl : calculate_ecomeals_points_float n = some r) (hhalf : n / 2 = r) :
    calculate_ecomeals_points_float n = some (spec_computePoints n) := by
  rw [spec_computePoints_eq_half n hn, hhalf, hfl]

/-- Package a float-pipeline value that is the half of its input and,
when the input is a multiple of 100, also fifty times its hundredth. -/
lemma points_float_both (n r : ℤ) (hfl : calculate_ecomeals_points_float n = some r)
    (h2 : n / 2 = r) (h100 : 100 ∣ n → 50 * (n / 100) = r) :
    calculate_ecomeals_points_float n = some (n / 2) ∧
      (100 ∣ n → calculate_ecomeals_points_float n = some (50 * (n / 100))) := by
  refine ⟨by rw [h2, hfl], fun hd => ?_⟩
  rw [h100 hd, hfl]

/-- C1: `calculate_co2_reduced` evaluates the flags in fixed
short-circuit order: breakfast first (1500), else lunch (2820), else
dinner (3700), else 0; in particular all three flags true yields 1500. -/
theorem c1_co2_short_circuit_order (s : MealSelection) :
    calculate_co2_reduced s =
      if s.eco_breakfast then 1500
      else if s.eco_lunch then 2820
      else if s.eco_dinner then 3700
      else 0 := by
  cases s with
  | mk b l d => cases b <;> cases l <;> cases d <;> rfl

/-- C2 counterexample: at input `100000000000000002` the program's float
pipeline yields `50000000000000000`, while the exact truncated rational
value `floor(n / 100 * 50)` is `50000000000000001`, so the claim fails
as a statement about every non-negative integer. -/
theorem c2_counterexample :
    calculate_ecomeals_points_float 100000000000000002 = some 50000000000000000 ∧
      spec_computePoints 100000000000000002 = 50000000000000001 ∧
      calculate_ecomeals_points_float 100000000000000002 ≠
        some (spec_computePoints 100000000000000002) := by
  have hs : spec_computePoints 100000000000000002 = 50000000000000001 := by
    rw [spec_computePoints_eq_half _ (by norm_num)]
    decide
  refine ⟨points_float_at_big, hs, ?_⟩
  rw [points_float_at_big, hs]
  decide

/-- C2 (amended): at every input reachable from a meal selection — the
values 0, 1500, 2820, 3700 — the float pipeline computes exactly the
truncation toward zero of the exact rational `n / 100 * 50`; in
particular 1500 ↦ 750, 2820 ↦ 1410, 3700 ↦ 1850. -/
theorem c2_points_exact_on_reachable (s : MealSelection) :
    calculate_ecomeals_points_float (calculate_co2_reduced s) =
      some (spec_computePoints (calculate_co2_reduced s)) ∧
      calculate_ecomeals_points_float 1500 = some 750 ∧
      calculate_ecomeals_points_float 2820 = some 1410 ∧
      calculate_ecomeals_points_float 3700 = some 1850 := by
  refine ⟨?_, points_float_at_1500, points_float_at_2820, points_float_at_3700⟩
  obtain ⟨b, l, d⟩ := s
  cases b <;> cases l <;> cases d
  · rw [show calculate_co2_reduced ⟨false, false, false⟩ = 0 from rfl]
    exact points_float_spec_case 0 (by decide) 0 points_float_at_zero (by decide)
  · rw [show calculate_co2_reduced ⟨false, false, true⟩ = 3700 from rfl]
    exact points_float_spec_case 3700 (by decide) 1850 points_float_at_3700 (by decide)
  · rw [show calculate_co2_reduced ⟨false, true, false⟩ = 2820 from rfl]
    exact points_float_spec_case 2820 (by decide) 1410 points_float_at_2820 (by decide)
  · rw [show calculate_co2_reduced ⟨false, true, true⟩ = 2820 from rfl]
    exact points_float_spec_case 2820 (by decide) 1410 points_float_at_2820 (by decide)
  · rw [show calculate_co2_reduced ⟨true, false, false⟩ = 1500 from rfl]
    exact points_float_spec_case 1500 (by decide) 750 points_float_at_1500 (by decide)
  · rw [show calculate_co2_reduced ⟨true, false, true⟩ = 1500 from rfl]
    exact points_float_spec_case 1500 (by decide) 750 points_float_at_1500 (by decide)
  · rw [show calculate_co2_reduced ⟨true, true, false⟩ = 1500 from rfl]
    exact points_float_spec_case 1500 (by decide) 750 points_float_at_1500 (by decide)
  · rw [show calculate_co2_reduced ⟨true, true, true⟩ = 1500 from rfl]
    exact points_float_spec_case 1500 (by decide) 750 points_float_at_1500 (by decide)

/-- C3 counterexample: at input 150 the code yields
`floor(150 / 100 * 50) = 75`, not `50 * floor(150 / 100) = 50`. -/
theorem c3_counterexample :
    calculate_ecomeals_points 150 = 75 ∧
      50 * ((150 : ℤ) / 100) = 50 ∧
      calculate_ecomeals_points 150 ≠ 50 * ((150 : ℤ) / 100) := by
  rw [calculate_ecomeals_points_eq_half]
  decide

/-- C3 (amended): at every input reachable from a meal selection — the
values 0, 1500, 2820, 3700 — the float pipeline awards exactly `n / 2`
points; the reading "50 points per full 100 g", i.e. `50 * (n / 100)`,
coincides with it exactly on the reachable inputs that are multiples of
100 (0, 1500, 3700).  Neither identity extends to all non-negative
integers: `n / 2` fails under float rounding near `10^17`, and
`50 * (n / 100)` fails already at 150, and even at the reachable input
2820, where the program awards 1410, not 1400. -/
theorem c3_points_half_on_reachable (s : MealSelection) :
    calculate_ecomeals_points_float (calculate_co2_reduced s) =
      some (calculate_co2_reduced s / 2) ∧
      (100 ∣ calculate_co2_reduced s →
        calculate_ecomeals_points_float (calculate_co2_reduced s) =
          some (50 * (calculate_co2_reduced s / 100))) := by
  obtain ⟨b, l, d⟩ := s
  cases b <;> cases l <;> cases d
  · rw [show calculate_co2_reduced ⟨false, false, false⟩ = 0 from rfl]
    exact points_float_both 0 0 points_float_at_zero (by decide) (fun _ => by decide)
  · rw [show calculate_co2_reduced ⟨false, false, true⟩ = 3700 from rfl]
    exact points_float_both 3700 1850 points_float_at_3700 (by decide) (fun _ => by decide)
  · rw [show calculate_co2_reduced ⟨false, true, false⟩ = 2820 from rfl]
    exact points_float_both 2820 1410 points_float_at_2820 (by decide)
      (fun hd => absurd hd (by norm_num))
  · rw [show calculate_co2_reduced ⟨false, true, true⟩ = 2820 from rfl]
    exact points_float_both 2820 1410 points_float_at_2820 (by decide)
      (fun hd => absurd hd (by norm_num))
  · rw [show calculate_co2_reduced ⟨true, false, false⟩ = 1500 from rfl]
    exact points_float_both 1500 750 points_float_at_1500 (by decide) (fun _ => by decide)
  · rw [show calculate_co2_reduced ⟨true, false, true⟩ = 1500 from rfl]
    exact points_float_both 1500 750 points_float_at_1500 (by decide) (fun _ => by decide)
  · rw [show calculate_co2_reduced ⟨true, true, false⟩ = 1500 from rfl]
    exact points_float_both 1500 750 points_float_at_1500 (by decide) (fun _ => by decide)
  · rw [show calculate_co2_reduced ⟨true, true, true⟩ = 1500 from rfl]
    exact points_float_both 1500 750 points_float_at_1500 (by decide) (fun _ => by decide)

/-- C3 witness: the amended statement at the breakfast-only selection. -/
theorem c3_points_half_on_reachable_witness :
    calculate_ecomeals_points_float (calculate_co2_reduced ⟨true, false, false⟩) =
      some (calculate_co2_reduced ⟨true, false, false⟩ / 2) ∧
      (100 ∣ calculate_co2_reduced ⟨true, false, false⟩ →
        calculate_ecomeals_points_float (calculate_co2_reduced ⟨true, false, false⟩) =
          some (50 * (calculate_co2_reduced ⟨true, false, false⟩ / 100))) :=
  c3_points_half_on_reachable ⟨true, false, false⟩

/-- C4: on a well-formed input dictionary (all three flags present) the
dictionary-level calculator reaches no error branch: it returns `some`
of exactly the value of the pure calculator on the corresponding
`MealSelection`; the points calculator is a total function and composes
with it. -/
theorem c4_total_on_wellformed (d : String → Option Bool) (b l dn : Bool)
    (hb : d "eco_breakfast" = some b) (hl : d "eco_lunch" = some l)
    (hdn : d "eco_dinner" = some dn) :
    calculate_co2_reduced_dict d = some (calculate_co2_reduced ⟨b, l, dn⟩) ∧
      (calculate_co2_reduced_dict d).map calculate_ecomeals_points =
        some (calculate_ecomeals_points (calculate_co2_reduced ⟨b, l, dn⟩)) := by
  have hmain : calculate_co2_reduced_dict d =
      some (calculate_co2_reduced ⟨b, l, dn⟩) := by
    unfold calculate_co2_reduced_dict calculate_co2_reduced
    rw [hb, hl, hdn]
    cases b <;> cases l <;> cases dn <;> rfl
  exact ⟨hmain, by rw [hmain]; rfl⟩

/-- C4 witness: a concrete well-formed dictionary with only
`eco_lunch` selected. -/
theorem c4_total_on_wellformed_witness :
    calculate_co2_reduced_dict
        (fun k => if k = "eco_breakfast" then some false
          else if k = "eco_lunch" then some true
          else if k = "eco_dinner" then some false else none) =
      some (calculate_co2_reduced ⟨false, true, false⟩) ∧
      (calculate_co2_reduced_dict
        (fun k => if k = "eco_breakfast" then some false
          else if k = "eco_lunch" then some true
          else if k = "eco_dinner" then some false else none)).map
          calculate_ecomeals_points =
        some (calculate_ecomeals_points (calculate_co2_reduced ⟨false, true, false⟩)) :=
  c4_total_on_wellformed _ false true false rfl rfl rfl

/-- C5: with all three flags false, `calculate_co2_reduced` returns 0,
and `calculate_ecomeals_points 0 = 0`. -/
theorem c5_all_false_yields_zero :
    calculate_co2_reduced ⟨false, false, false⟩ = 0 ∧
      calculate_ecomeals_points 0 = 0 := by
  constructor
  · rfl
  · rw [calculate_ecomeals_points_eq_half]
    decide

/-- C6: `calculate_ecomeals_points` is monotonically non-decreasing on
non-negative inputs. -/
theorem c6_points_monotone (m n : ℤ) (_hm : 0 ≤ m) (hmn : m ≤ n) :
    calculate_ecomeals_points m ≤ calculate_ecomeals_points n := by
  unfold calculate_ecomeals_points
  apply Int.floor_le_floor
  have hq : (m : ℚ) ≤ (n : ℚ) := by exact_mod_cast hmn
  have h50 : (0 : ℚ) ≤ ((POINTS_AWARDED_100GCO2 : ℤ) : ℚ) := by
    unfold POINTS_AWARDED_100GCO2
    norm_num
  gcongr

/-- C6 witness at `m = 100`, `n = 350`. -/
theorem c6_points_monotone_witness :
    calculate_ecomeals_points 100 ≤ calculate_ecomeals_points 350 :=
  c6_points_monotone 100 350 (by decide) (by decide)

/-- C7: for every `MealSelection`, both components of the derived
impact result are non-negative integers. -/
theorem c7_impact_nonneg (s : MealSelection) :
    0 ≤ calculate_co2_reduced s ∧
      0 ≤ calculate_ecomeals_points (calculate_co2_reduced s) := by
  obtain ⟨b, l, d⟩ := s
  cases b <;> cases l <;> cases d <;>
    exact ⟨by decide, by rw [calculate_ecomeals_points_eq_half]; decide⟩

/-- C8: both calculators are deterministic pure functions: identical
inputs give identical outputs. -/
theorem c8_deterministic (s₁ s₂ : MealSelection) (n₁ n₂ : ℤ)
    (hs : s₁ = s₂) (hn : n₁ = n₂) :
    calculate_co2_reduced s₁ = calculate_co2_reduced s₂ ∧
      calculate_ecomeals_points n₁ = calculate_ecomeals_points n₂ := by
  subst hs
  subst hn
  exact ⟨rfl, rfl⟩

/-- C8 witness at a concrete selection and input. -/
theorem c8_deterministic_witness :
    calculate_co2_reduced ⟨true, false, true⟩ =
        calculate_co2_reduced ⟨true, false, true⟩ ∧
      calculate_ecomeals_points 2820 = calculate_ecomeals_points 2820 :=
  c8_deterministic ⟨true, false, true⟩ ⟨true, false, true⟩ 2820 2820 rfl rfl

/-- C9: the CO2 reduction is always one of 0, 1500, 2820, 3700. -/
theorem c9_co2_range (s : MealSelection) :
    calculate_co2_reduced s ∈ ({0, 1500, 2820, 3700} : Finset ℤ) := by
  obtain ⟨b, l, d⟩ := s
  cases b <;> cases l <;> cases d <;> decide

/-- C10: the points awarded are exactly half the CO2 reduction, with no
rounding loss, since every reachable reduction value is even. -/
theorem c10_points_are_half (s : MealSelection) :
    2 * calculate_ecomeals_points (calculate_co2_reduced s) =
        calculate_co2_reduced s ∧
      calculate_ecomeals_points (calculate_co2_reduced s) =
        calculate_co2_reduced s / 2 := by
  obtain ⟨b, l, d⟩ := s
  cases b <;> cases l <;> cases d <;>
    exact ⟨by rw [calculate_ecomeals_points_eq_half]; decide,
      calculate_ecomeals_points_eq_half _⟩
